import Mathlib

set_option autoImplicit false

/-!
Shallow embedding of `src/main.rs` of scrape-web-by-virtual-printing.

The program renders a web page with a headless browser in two forms
(a print-rendered PDF byte stream and the raw HTML markup), extracts
text from each form, and selects one of the two texts by a word-count
heuristic.  External collaborators (the browser, the PDF library, the
URL parser, the readability library, the html-to-text renderer) are
modelled as oracle fields of an `Env` structure; the functions of the
source are translated stage by stage, each returning its Rust outcome
(normal return, returned error, or panic) together with a trace of the
externally visible events it performed.
-/

namespace Scrape

/-- Outcome of a fallible Rust computation: a normal return,
a returned `Err` (propagated by `?`), or a panic (`unwrap` on `Err`). -/
inductive ROut (α : Type) where
  | ok : α → ROut α
  | err : ROut α
  | panicked : ROut α
  deriving DecidableEq, Repr

/-- Externally visible events of one request, used to talk about which
collaborators a code path invokes. -/
inductive Event where
  /-- a browser navigation to the target URL (`navigate_to` + `wait_until_navigated`) -/
  | renderNav
  /-- the PDF document decode step (`load_pdf_from_byte_vec`) was invoked -/
  | pdfDecode
  /-- the readability extraction (`Readability::extract`) was invoked -/
  | readabilityRun
  deriving DecidableEq, Repr

/-- Model of a parsed `url::Url`: the accessors the source uses. -/
structure ParsedUrl where
  scheme : String
  host : Option String
  path : String
  query : Option String
  fragment : Option String
  deriving DecidableEq, Repr

/-- Oracles for the external collaborators of one request:
the `url` crate's parser, the headless browser, the pdfium binding and
PDF decoder, the readability extractor and the html-to-text renderer. -/
structure Env where
  /-- Oracle for `Url::from_str` / `Url::parse`: `none` on parse failure. -/
  urlParse : String → Option ParsedUrl
  /-- Oracle for `Browser::new(options)`: `none` on launch failure. -/
  browserLaunch : Option Unit
  /-- Oracle for `browser.new_tab()`: `none` on failure. -/
  newTab : Option Unit
  /-- Oracle for `tab.navigate_to(url)` plus `tab.wait_until_navigated()`. -/
  navigate : String → Option Unit
  /-- Oracle for `tab.print_to_pdf(options)`: the paginated PDF bytes. -/
  printToPdf : String → Option (List Nat)
  /-- Oracle for `tab.get_content()`: the raw markup of the loaded page. -/
  getContent : String → Option String
  /-- Oracle for `Pdfium::bind_to_library(..).or_else(..)`. -/
  pdfiumBind : Option Unit
  /-- Oracle for `load_pdf_from_byte_vec(bytes, Some("")).pages()`: the
  ordered pages, each carrying its `page.text()` result
  (`none` = text decode failure for that page). -/
  loadPdf : List Nat → Option (List (Option String))
  /-- Oracle for `Readability::extract(html, Some(base_url))` followed by
  `to_string()`: `none` on markup parse failure or when no extractable
  content is found. -/
  readabilityExtract : String → ParsedUrl → Option String
  /-- Oracle for `html2text::from_read(bytes, 80)` (infallible). -/
  html2textRender : String → String

/-- Accumulator pass behind `splitWhitespace`: walks the characters,
collecting the current word in reverse. -/
def wordsAux : List Char → List Char → List String
  | [], cur => if cur.isEmpty then [] else [String.mk cur.reverse]
  | c :: cs, cur =>
    if c.isWhitespace then
      if cur.isEmpty then wordsAux cs [] else String.mk cur.reverse :: wordsAux cs []
    else wordsAux cs (c :: cur)

/-- Model of Rust's `str::split_whitespace`: the non-empty maximal runs
of non-whitespace characters, in order. -/
def splitWhitespace (s : String) : List String :=
  wordsAux s.data []

/-- Model of `s.split_whitespace().count()`, the word count of the
heuristic. -/
def wordCount (s : String) : Nat :=
  (splitWhitespace s).length

/-- Model of `.map(|page| page.text().unwrap().all()).collect()`:
collects every page's decoded text; a failing `unwrap` (a page whose
text is `none`) panics, modelled by `none`. -/
def collectPages : List (Option String) → Option (List String)
  | [] => some []
  | none :: _ => none
  | some t :: rest => (collectPages rest).map (fun ts => t :: ts)

/-- Embedding of `get_webpage_text_headless(url)`: launch the browser,
navigate, print to PDF, decode the PDF and join the page texts with a
single space. -/
def get_webpage_text_headless (env : Env) (url : String) :
    ROut String × List Event :=
  match env.browserLaunch with
  | none => (.err, [])
  | some _ =>
    match env.newTab with
    | none => (.err, [])
    | some _ =>
      match env.navigate url with
      | none => (.err, [.renderNav])
      | some _ =>
        match env.printToPdf url with
        | none => (.err, [.renderNav])
        | some pdf_as_vec =>
          match env.pdfiumBind with
          | none => (.err, [.renderNav])
          | some _ =>
            match env.loadPdf pdf_as_vec with
            | none => (.err, [.renderNav, .pdfDecode])
            | some pages =>
              match collectPages pages with
              | none => (.panicked, [.renderNav, .pdfDecode])
              | some texts =>
                (.ok (String.intercalate " " texts), [.renderNav, .pdfDecode])

/-- Embedding of `get_html_headless(url)`: launch the browser, navigate,
and return the raw markup of the loaded page. -/
def get_html_headless (env : Env) (url : String) :
    ROut String × List Event :=
  match env.browserLaunch with
  | none => (.err, [])
  | some _ =>
    match env.newTab with
    | none => (.err, [])
    | some _ =>
      match env.navigate url with
      | none => (.err, [.renderNav])
      | some _ =>
        match env.getContent url with
        | none => (.err, [.renderNav])
        | some text => (.ok text, [.renderNav])

/-- Embedding of `extract_article_text_from_html(url, html_str)`: parse
`url`, rebuild a base URL from its scheme and host only, run the
readability extraction anchored at that base, and render the result to
plain text at width 80. -/
def extract_article_text_from_html (env : Env) (url : String)
    (html_str : String) : ROut String × List Event :=
  match env.urlParse url with
  | none => (.err, [])
  | some parsed_url =>
    let scheme := parsed_url.scheme
    let host := parsed_url.host.getD ""
    match env.urlParse (scheme ++ "://" ++ host) with
    | none => (.err, [])
    | some base_url =>
      match env.readabilityExtract html_str base_url with
      | none => (.err, [.readabilityRun])
      | some res => (.ok (env.html2textRender res), [.readabilityRun])

/-- Embedding of `text_to_use(url)`: run the paginated extraction, then
the markup fetch, then the readability extraction (each `?` propagates a
failure), then select one text by the word-count thresholds. -/
def text_to_use (env : Env) (url : String) : ROut String × List Event :=
  let p := get_webpage_text_headless env url
  match p.1 with
  | .err => (.err, p.2)
  | .panicked => (.panicked, p.2)
  | .ok pdf_text =>
    let h := get_html_headless env url
    match h.1 with
    | .err => (.err, p.2 ++ h.2)
    | .panicked => (.panicked, p.2 ++ h.2)
    | .ok html_str =>
      let e := extract_article_text_from_html env url html_str
      match e.1 with
      | .err => (.err, p.2 ++ h.2 ++ e.2)
      | .panicked => (.panicked, p.2 ++ h.2 ++ e.2)
      | .ok readah_text =>
        let readah_text_len := wordCount readah_text
        let pdf_text_len := wordCount pdf_text
        let lots_of_text_on_page := pdf_text_len > 999
        let readah_sees_lots_of_texts := readah_text_len > 500
        if lots_of_text_on_page ∧ readah_sees_lots_of_texts then
          (.ok readah_text, p.2 ++ h.2 ++ e.2)
        else
          (.ok pdf_text, p.2 ++ h.2 ++ e.2)

/-- Embedding of the POST `/api` handler `handle_post(data)`: validate
the URL, run `text_to_use`, map both outcomes to a fixed-status body (a
panic inside the pipeline unwinds). -/
def handle_post (env : Env) (url : String) : ROut String × List Event :=
  match env.urlParse url with
  | none => (.ok "parse target url failure", [])
  | some _ =>
    let r := text_to_use env url
    match r.1 with
    | .ok res => (.ok res, r.2)
    | .err => (.ok "failed to get text from webpage", r.2)
    | .panicked => (.panicked, r.2)

/-- Embedding of the serde decorator `empty_string_as_none`: a missing
or empty `url` query parameter becomes `none`. -/
def empty_string_as_none (o : Option String) : Option String :=
  match o with
  | none => none
  | some "" => none
  | some s => some s

/-- Embedding of the GET `/` `handler(params)`: on a present,
well-formed `url` it runs only `get_webpage_text_headless`; a missing or
empty parameter yields the fixed ill-formed-request body. -/
def handler (env : Env) (rawUrl : Option String) : ROut String × List Event :=
  match empty_string_as_none rawUrl with
  | none => (.ok "probably ill-formed request", [])
  | some url =>
    match env.urlParse url with
    | none => (.ok "parse target url failure", [])
    | some _ =>
      let r := get_webpage_text_headless env url
      match r.1 with
      | .ok res => (.ok res, r.2)
      | .err => (.ok "failed to get text from webpage", r.2)
      | .panicked => (.panicked, r.2)

/-! Concrete test fixtures: a string of `n` whitespace-separated words,
and environments in which the collaborators behave in prescribed ways. -/

/-- Fixture: a string of `n` words separated by single spaces. -/
def mkWords : Nat → String
  | 0 => ""
  | 1 => "w"
  | n + 2 => "w " ++ mkWords (n + 1)

/-- Fixture URL used by the concrete environments. -/
def exUrl : String := "https://example.com/a"

/-- Fixture environment in which every collaborator succeeds: the PDF
decodes to a single page with text `pdfText`, the readability extraction
yields `readahText`, and only the literal string "not a url" fails URL
parsing. -/
def pairEnv (pdfText readahText : String) : Env where
  urlParse := fun s =>
    if s = "not a url" then none
    else if s = "https://example.com/b?q=1" then
      some ⟨"https", some "example.com", "/b", some "q=1", none⟩
    else some ⟨"https", some "example.com", "/a", none, none⟩
  browserLaunch := some ()
  newTab := some ()
  navigate := fun _ => some ()
  printToPdf := fun _ => some [0]
  getContent := fun _ => some "<html></html>"
  pdfiumBind := some ()
  loadPdf := fun _ => some [some pdfText]
  readabilityExtract := fun _ _ => some readahText
  html2textRender := fun s => s

/-- Fixture: rendering succeeds but the PDF byte stream fails to decode,
while the readability side would succeed. -/
def pagFailEnv : Env :=
  { pairEnv "p" "r" with loadPdf := fun _ => none }

/-- Fixture: rendering succeeds, the readability extraction fails, the
paginated side succeeds. -/
def readFailEnv : Env :=
  { pairEnv "p" "r" with readabilityExtract := fun _ _ => none }

/-- Fixture: rendering succeeds but both extractors fail. -/
def bothFailEnv : Env :=
  { pairEnv "p" "r" with
      loadPdf := fun _ => none
      readabilityExtract := fun _ _ => none }

/-- Fixture: a successful environment whose PDF has two pages. -/
def twoPageEnv : Env :=
  { pairEnv "p" "r" with loadPdf := fun _ => some [some "foo bar", some "baz"] }

/-- Fixture: the PDF decodes, but its second page's text fails to
decode. -/
def pagePanicEnv : Env :=
  { pairEnv "p" "r" with loadPdf := fun _ => some [some "a", none] }

/-- Fixture: like `pairEnv "p" "r"` but with a navigation oracle that is
written differently yet agrees at `exUrl`. -/
def altNavEnv : Env :=
  { pairEnv "p" "r" with navigate := fun s => if s = exUrl then some () else none }

/-- Fixture: `exUrl` itself parses but the rebuilt base URL string does
not. -/
def baseFailEnv : Env :=
  { pairEnv "p" "r" with
      urlParse := fun s =>
        if s = exUrl then some ⟨"https", some "example.com", "/a", none, none⟩
        else none }

end Scrape

namespace Scrape

/-! Helper lemmas shared by the claim theorems. -/

lemma mkWords_data_succ (n : Nat) :
    (mkWords (n + 2)).data = 'w' :: ' ' :: (mkWords (n + 1)).data := by
  show ("w " ++ mkWords (n + 1)).data = _
  rw [String.data_append]
  rfl

lemma wordsAux_mkWords (n : Nat) :
    wordsAux (mkWords (n + 1)).data [] = "w" :: wordsAux (mkWords n).data [] := by
  cases n with
  | zero => decide
  | succ m =>
    rw [mkWords_data_succ]
    simp [wordsAux]

lemma wordCount_mkWords (n : Nat) : wordCount (mkWords n) = n := by
  induction n with
  | zero => decide
  | succ m ih =>
    unfold wordCount splitWhitespace at *
    rw [wordsAux_mkWords]
    simp [ih]

lemma collectPages_map_some (ts : List String) :
    collectPages (ts.map some) = some ts := by
  induction ts with
  | nil => rfl
  | cons t rest ih => simp [collectPages, ih]

lemma collectPages_eq_none (pages : List (Option String))
    (h : none ∈ pages) : collectPages pages = none := by
  induction pages with
  | nil => simp at h
  | cons p rest ih =>
    cases p with
    | none => rfl
    | some t =>
      simp at h
      simp [collectPages, ih h]

lemma pairEnv_gwth (p r u : String) :
    get_webpage_text_headless (pairEnv p r) u =
      (ROut.ok p, [Event.renderNav, Event.pdfDecode]) := rfl

lemma pairEnv_ghh (p r u : String) :
    get_html_headless (pairEnv p r) u =
      (ROut.ok "<html></html>", [Event.renderNav]) := rfl

lemma pairEnv_eath (p r html : String) :
    extract_article_text_from_html (pairEnv p r) exUrl html =
      (ROut.ok r, [Event.readabilityRun]) := rfl

/-- C1: with both candidates present, the pipeline returns the
readability text exactly when the paginated word count exceeds 999 and
the readability word count exceeds 500, and the paginated text in every
other case. -/
theorem C1_selection_threshold_policy (env : Env)
    (url pdfText htmlStr readahText : String)
    (h1 : (get_webpage_text_headless env url).1 = ROut.ok pdfText)
    (h2 : (get_html_headless env url).1 = ROut.ok htmlStr)
    (h3 : (extract_article_text_from_html env url htmlStr).1 = ROut.ok readahText) :
    (text_to_use env url).1 =
      (if wordCount pdfText > 999 ∧ wordCount readahText > 500
       then ROut.ok readahText else ROut.ok pdfText) := by
  simp only [text_to_use, h1, h2, h3]
  split <;> simp_all

/-- Witness for C1: the concrete word-count pairs (1000, 501),
(1000, 500), (999, 999) and (0, 0) from the claim. -/
theorem C1_selection_threshold_policy_witness :
    ((get_webpage_text_headless (pairEnv (mkWords 1000) (mkWords 501)) exUrl).1 =
        ROut.ok (mkWords 1000)
      ∧ (text_to_use (pairEnv (mkWords 1000) (mkWords 501)) exUrl).1 =
        ROut.ok (mkWords 501))
    ∧ (text_to_use (pairEnv (mkWords 1000) (mkWords 500)) exUrl).1 =
        ROut.ok (mkWords 1000)
    ∧ (text_to_use (pairEnv (mkWords 999) (mkWords 999)) exUrl).1 =
        ROut.ok (mkWords 999)
    ∧ (text_to_use (pairEnv (mkWords 0) (mkWords 0)) exUrl).1 =
        ROut.ok (mkWords 0) := by
  refine ⟨⟨by rw [pairEnv_gwth], ?_⟩, ?_, ?_, ?_⟩
  · rw [C1_selection_threshold_policy (pairEnv (mkWords 1000) (mkWords 501)) exUrl
      (mkWords 1000) "<html></html>" (mkWords 501)
      (by rw [pairEnv_gwth]) (by rw [pairEnv_ghh]) (by rw [pairEnv_eath])]
    rw [if_pos]
    simp only [wordCount_mkWords]
    omega
  · rw [C1_selection_threshold_policy (pairEnv (mkWords 1000) (mkWords 500)) exUrl
      (mkWords 1000) "<html></html>" (mkWords 500)
      (by rw [pairEnv_gwth]) (by rw [pairEnv_ghh]) (by rw [pairEnv_eath])]
    rw [if_neg]
    simp only [wordCount_mkWords]
    omega
  · rw [C1_selection_threshold_policy (pairEnv (mkWords 999) (mkWords 999)) exUrl
      (mkWords 999) "<html></html>" (mkWords 999)
      (by rw [pairEnv_gwth]) (by rw [pairEnv_ghh]) (by rw [pairEnv_eath])]
    rw [if_neg]
    simp only [wordCount_mkWords]
    omega
  · rw [C1_selection_threshold_policy (pairEnv (mkWords 0) (mkWords 0)) exUrl
      (mkWords 0) "<html></html>" (mkWords 0)
      (by rw [pairEnv_gwth]) (by rw [pairEnv_ghh]) (by rw [pairEnv_eath])]
    rw [if_neg]
    simp only [wordCount_mkWords]
    omega

end Scrape

namespace Scrape

lemma gwth_cases (env : Env) (url : String) :
    get_webpage_text_headless env url = (ROut.err, []) ∨
    get_webpage_text_headless env url = (ROut.err, [Event.renderNav]) ∨
    get_webpage_text_headless env url = (ROut.err, [Event.renderNav, Event.pdfDecode]) ∨
    get_webpage_text_headless env url = (ROut.panicked, [Event.renderNav, Event.pdfDecode]) ∨
    ∃ s, get_webpage_text_headless env url =
      (ROut.ok s, [Event.renderNav, Event.pdfDecode]) := by
  unfold get_webpage_text_headless
  repeat' split
  all_goals tauto

lemma ghh_cases (env : Env) (url : String) :
    get_html_headless env url = (ROut.err, []) ∨
    get_html_headless env url = (ROut.err, [Event.renderNav]) ∨
    ∃ s, get_html_headless env url = (ROut.ok s, [Event.renderNav]) := by
  unfold get_html_headless
  repeat' split
  all_goals tauto

lemma eath_cases (env : Env) (url html : String) :
    extract_article_text_from_html env url html = (ROut.err, []) ∨
    extract_article_text_from_html env url html = (ROut.err, [Event.readabilityRun]) ∨
    ∃ s, extract_article_text_from_html env url html =
      (ROut.ok s, [Event.readabilityRun]) := by
  simp only [extract_article_text_from_html]
  repeat' split
  all_goals tauto

lemma gwth_trace_of_ok (env : Env) (url s : String)
    (h : (get_webpage_text_headless env url).1 = ROut.ok s) :
    (get_webpage_text_headless env url).2 = [Event.renderNav, Event.pdfDecode] := by
  rcases gwth_cases env url with h' | h' | h' | h' | ⟨t, h'⟩ <;> simp_all

lemma ghh_trace_of_ok (env : Env) (url s : String)
    (h : (get_html_headless env url).1 = ROut.ok s) :
    (get_html_headless env url).2 = [Event.renderNav] := by
  rcases ghh_cases env url with h' | h' | ⟨t, h'⟩ <;> simp_all

lemma eath_trace_of_ok (env : Env) (url html s : String)
    (h : (extract_article_text_from_html env url html).1 = ROut.ok s) :
    (extract_article_text_from_html env url html).2 = [Event.readabilityRun] := by
  rcases eath_cases env url html with h' | h' | ⟨t, h'⟩ <;> simp_all

lemma readabilityRun_not_mem_gwth (env : Env) (url : String) :
    Event.readabilityRun ∉ (get_webpage_text_headless env url).2 := by
  rcases gwth_cases env url with h | h | h | h | ⟨t, h⟩ <;> simp [h]

lemma text_to_use_ok_inv (env : Env) (url s : String)
    (h : (text_to_use env url).1 = ROut.ok s) :
    ∃ pdf html readah,
      (get_webpage_text_headless env url).1 = ROut.ok pdf ∧
      (get_html_headless env url).1 = ROut.ok html ∧
      (extract_article_text_from_html env url html).1 = ROut.ok readah ∧
      (text_to_use env url).2 =
        (get_webpage_text_headless env url).2 ++ (get_html_headless env url).2 ++
          (extract_article_text_from_html env url html).2 := by
  simp only [text_to_use] at h
  cases hg : (get_webpage_text_headless env url).1 with
  | err => rw [hg] at h; simp at h
  | panicked => rw [hg] at h; simp at h
  | ok pdf =>
    rw [hg] at h
    simp only [] at h
    cases hh : (get_html_headless env url).1 with
    | err => rw [hh] at h; simp at h
    | panicked => rw [hh] at h; simp at h
    | ok html =>
      rw [hh] at h
      simp only [] at h
      cases he : (extract_article_text_from_html env url html).1 with
      | err => rw [he] at h; simp at h
      | panicked => rw [he] at h; simp at h
      | ok readah =>
        refine ⟨pdf, html, readah, rfl, rfl, he, ?_⟩
        simp only [text_to_use, hg, hh, he]
        split <;> rfl

/-- C2 counterexample: in `pagFailEnv` the readability extraction would
succeed (returning "r"), yet a decode failure of the paginated extractor
makes `text_to_use` return the error and the readability extractor never
runs; conversely in `readFailEnv` the paginated candidate succeeded, yet
a readability failure makes the whole pipeline fail. -/
theorem C2_extractor_isolation_counterexample :
    ((extract_article_text_from_html pagFailEnv exUrl "<html></html>").1 = ROut.ok "r"
      ∧ (text_to_use pagFailEnv exUrl).1 = ROut.err
      ∧ Event.readabilityRun ∉ (text_to_use pagFailEnv exUrl).2)
    ∧ ((get_webpage_text_headless readFailEnv exUrl).1 = ROut.ok "p"
      ∧ (text_to_use readFailEnv exUrl).1 = ROut.err) := by decide

/-- C2 (amended): a failure of one extractor aborts the pipeline rather
than degrading only that candidate: a paginated failure makes
`text_to_use` return the error without the readability extractor ever
running, and a readability failure makes `text_to_use` return the error
even though the paginated candidate succeeded. -/
theorem C2_extractor_failure_aborts_pipeline (env : Env) (url : String) :
    ((get_webpage_text_headless env url).1 = ROut.err →
      (text_to_use env url).1 = ROut.err ∧
        Event.readabilityRun ∉ (text_to_use env url).2)
    ∧ (∀ pdf html, (get_webpage_text_headless env url).1 = ROut.ok pdf →
        (get_html_headless env url).1 = ROut.ok html →
        (extract_article_text_from_html env url html).1 = ROut.err →
        (text_to_use env url).1 = ROut.err) := by
  constructor
  · intro h
    refine ⟨by simp only [text_to_use, h], ?_⟩
    simp only [text_to_use, h]
    exact readabilityRun_not_mem_gwth env url
  · intro pdf html h1 h2 h3
    simp only [text_to_use, h1, h2, h3]

/-- Witness for C2 (amended), at the environments of the counterexample. -/
theorem C2_extractor_failure_aborts_pipeline_witness :
    ((get_webpage_text_headless pagFailEnv exUrl).1 = ROut.err
      ∧ (text_to_use pagFailEnv exUrl).1 = ROut.err
      ∧ Event.readabilityRun ∉ (text_to_use pagFailEnv exUrl).2)
    ∧ ((get_webpage_text_headless readFailEnv exUrl).1 = ROut.ok "p"
      ∧ (get_html_headless readFailEnv exUrl).1 = ROut.ok "<html></html>"
      ∧ (extract_article_text_from_html readFailEnv exUrl "<html></html>").1 = ROut.err
      ∧ (text_to_use readFailEnv exUrl).1 = ROut.err) := by
  refine ⟨⟨by decide, ?_⟩, by decide, by decide, by decide, ?_⟩
  · exact (C2_extractor_failure_aborts_pipeline pagFailEnv exUrl).1 (by decide)
  · exact (C2_extractor_failure_aborts_pipeline readFailEnv exUrl).2 "p" "<html></html>"
      (by decide) (by decide) (by decide)

end Scrape

namespace Scrape

/-- C3 counterexample: in `bothFailEnv` rendering succeeds and both
extractors fail, yet `handle_post` returns the fixed failure body, not a
success with empty text; the extractor failure is user-visible. -/
theorem C3_no_candidates_counterexample :
    bothFailEnv.navigate exUrl = some ()
    ∧ bothFailEnv.loadPdf [0] = none
    ∧ bothFailEnv.readabilityExtract "<html></html>"
        ⟨"https", some "example.com", "/a", none, none⟩ = none
    ∧ (handle_post bothFailEnv exUrl).1 = ROut.ok "failed to get text from webpage"
    ∧ (handle_post bothFailEnv exUrl).1 ≠ ROut.ok "" := by decide

/-- C3 (amended): any failure inside `text_to_use` (render or extractor)
escapes to the caller, and `handle_post` surfaces it as the fixed
failure body "failed to get text from webpage" (under HTTP 200); an
invalid URL is answered with "parse target url failure" before the
pipeline runs.  There is no empty-text success when both extractors
fail. -/
theorem C3_pipeline_failure_surfaces_error_body (env : Env) (url : String) :
    ((env.urlParse url).isSome → (text_to_use env url).1 = ROut.err →
      (handle_post env url).1 = ROut.ok "failed to get text from webpage")
    ∧ (env.urlParse url = none →
      handle_post env url = (ROut.ok "parse target url failure", [])) := by
  constructor
  · intro hs h
    cases hu : env.urlParse url with
    | none => rw [hu] at hs; simp at hs
    | some p => simp only [handle_post, hu, h]
  · intro h
    simp only [handle_post, h]

/-- Witness for C3 (amended), at `bothFailEnv` and at an unparsable URL. -/
theorem C3_pipeline_failure_surfaces_error_body_witness :
    ((bothFailEnv.urlParse exUrl).isSome
      ∧ (text_to_use bothFailEnv exUrl).1 = ROut.err
      ∧ (handle_post bothFailEnv exUrl).1 = ROut.ok "failed to get text from webpage")
    ∧ ((pairEnv "p" "r").urlParse "not a url" = none
      ∧ handle_post (pairEnv "p" "r") "not a url" =
          (ROut.ok "parse target url failure", [])) := by
  refine ⟨⟨by decide, by decide, ?_⟩, by decide, ?_⟩
  · exact (C3_pipeline_failure_surfaces_error_body bothFailEnv exUrl).1
      (by decide) (by decide)
  · exact (C3_pipeline_failure_surfaces_error_body (pairEnv "p" "r") "not a url").2
      (by decide)

/-- C4 counterexample: a fully successful request in `pairEnv` navigates
the browser to the URL twice (once for the PDF form, once for the raw
markup), not once. -/
theorem C4_single_render_counterexample :
    (text_to_use (pairEnv "p" "r") exUrl).1 = ROut.ok "p"
    ∧ ((text_to_use (pairEnv "p" "r") exUrl).2).count Event.renderNav = 2
    ∧ ((text_to_use (pairEnv "p" "r") exUrl).2).count Event.renderNav ≠ 1 := by
  decide

/-- C4 (amended): every successful pipeline run navigates/renders the
URL exactly twice: `get_webpage_text_headless` and `get_html_headless`
each perform their own navigation, so the two derived forms come from
two separate renders. -/
theorem C4_successful_run_renders_twice (env : Env) (url s : String)
    (h : (text_to_use env url).1 = ROut.ok s) :
    ((text_to_use env url).2).count Event.renderNav = 2 := by
  obtain ⟨pdf, html, readah, h1, h2, h3, htr⟩ := text_to_use_ok_inv env url s h
  rw [htr, gwth_trace_of_ok env url pdf h1, ghh_trace_of_ok env url html h2,
    eath_trace_of_ok env url html readah h3]
  decide

/-- Witness for C4 (amended) at the fully successful environment. -/
theorem C4_successful_run_renders_twice_witness :
    (text_to_use (pairEnv "p" "r") exUrl).1 = ROut.ok "p"
    ∧ ((text_to_use (pairEnv "p" "r") exUrl).2).count Event.renderNav = 2 :=
  ⟨by decide, C4_successful_run_renders_twice (pairEnv "p" "r") exUrl "p" (by decide)⟩

lemma gwth_eval (env : Env) (url : String) (bytes : List Nat)
    (pages : List (Option String))
    (hb : env.browserLaunch = some ()) (ht : env.newTab = some ())
    (hn : env.navigate url = some ()) (hp : env.printToPdf url = some bytes)
    (hpb : env.pdfiumBind = some ()) (hl : env.loadPdf bytes = some pages) :
    get_webpage_text_headless env url =
      match collectPages pages with
      | none => (ROut.panicked, [Event.renderNav, Event.pdfDecode])
      | some texts =>
        (ROut.ok (String.intercalate " " texts), [Event.renderNav, Event.pdfDecode]) := by
  simp only [get_webpage_text_headless, hb, ht, hn, hp, hpb, hl]

/-- C5: when the browser stages succeed and every page of the decoded
PDF yields its text, the paginated extractor returns exactly the page
texts joined in page order by a single space, and the word count the
pipeline uses for that candidate is the number of whitespace-separated
tokens of the joined string. -/
theorem C5_paginated_join_and_wordcount (env : Env) (url : String)
    (bytes : List Nat) (texts : List String)
    (hb : env.browserLaunch = some ()) (ht : env.newTab = some ())
    (hn : env.navigate url = some ()) (hp : env.printToPdf url = some bytes)
    (hpb : env.pdfiumBind = some ())
    (hl : env.loadPdf bytes = some (texts.map some)) :
    (get_webpage_text_headless env url).1 = ROut.ok (String.intercalate " " texts)
    ∧ wordCount (String.intercalate " " texts) =
        (splitWhitespace (String.intercalate " " texts)).length := by
  refine ⟨?_, rfl⟩
  rw [gwth_eval env url bytes (texts.map some) hb ht hn hp hpb hl,
    collectPages_map_some]

/-- Witness for C5 at a two-page document. -/
theorem C5_paginated_join_and_wordcount_witness :
    twoPageEnv.browserLaunch = some () ∧ twoPageEnv.newTab = some ()
    ∧ twoPageEnv.navigate exUrl = some ()
    ∧ twoPageEnv.printToPdf exUrl = some [0]
    ∧ twoPageEnv.pdfiumBind = some ()
    ∧ twoPageEnv.loadPdf [0] = some (["foo bar", "baz"].map some)
    ∧ (get_webpage_text_headless twoPageEnv exUrl).1 =
        ROut.ok (String.intercalate " " ["foo bar", "baz"])
    ∧ (get_webpage_text_headless twoPageEnv exUrl).1 = ROut.ok "foo bar baz"
    ∧ wordCount "foo bar baz" = 3 := by
  refine ⟨rfl, rfl, rfl, rfl, rfl, rfl, ?_, by decide, by decide⟩
  exact (C5_paginated_join_and_wordcount twoPageEnv exUrl [0] ["foo bar", "baz"]
    rfl rfl rfl rfl rfl rfl).1

end Scrape

namespace Scrape

/-- C6: the readability extractor derives its base URL from the input
URL's scheme and host only (two URLs whose parses agree on scheme and
host produce identical extractions, whatever their path, query or
fragment), and every failure case — malformed input URL, underivable
base URL, markup with no extractable content — returns an error value;
the extractor never panics. -/
theorem C6_readability_base_url_and_failures (env : Env) (url html : String) :
    (∀ u' p p', env.urlParse url = some p → env.urlParse u' = some p' →
      p.scheme = p'.scheme → p.host = p'.host →
      extract_article_text_from_html env url html =
        extract_article_text_from_html env u' html)
    ∧ (env.urlParse url = none →
        extract_article_text_from_html env url html = (ROut.err, []))
    ∧ (∀ p, env.urlParse url = some p →
        env.urlParse (p.scheme ++ "://" ++ p.host.getD "") = none →
        extract_article_text_from_html env url html = (ROut.err, []))
    ∧ (∀ p b, env.urlParse url = some p →
        env.urlParse (p.scheme ++ "://" ++ p.host.getD "") = some b →
        env.readabilityExtract html b = none →
        extract_article_text_from_html env url html =
          (ROut.err, [Event.readabilityRun]))
    ∧ (extract_article_text_from_html env url html).1 ≠ ROut.panicked := by
  refine ⟨?_, ?_, ?_, ?_, ?_⟩
  · intro u' p p' hp hp' hs hh
    simp only [extract_article_text_from_html, hp, hp']
    rw [hs, hh]
  · intro h
    simp only [extract_article_text_from_html, h]
  · intro p hp hbase
    simp only [extract_article_text_from_html, hp, hbase]
  · intro p b hp hbase hre
    simp only [extract_article_text_from_html, hp, hbase, hre]
  · rcases eath_cases env url html with h | h | ⟨s, h⟩ <;> simp [h]

/-- Witness for C6: same scheme and host with different path and query
give the same extraction; "not a url", an underivable base, and a
readability failure each give an error. -/
theorem C6_readability_base_url_and_failures_witness :
    (extract_article_text_from_html (pairEnv "p" "r") exUrl "<p>x</p>" =
        extract_article_text_from_html (pairEnv "p" "r")
          "https://example.com/b?q=1" "<p>x</p>")
    ∧ (extract_article_text_from_html (pairEnv "p" "r") "not a url" "<p>x</p>" =
        (ROut.err, []))
    ∧ (extract_article_text_from_html baseFailEnv exUrl "<p>x</p>" =
        (ROut.err, []))
    ∧ (extract_article_text_from_html readFailEnv exUrl "<p>x</p>" =
        (ROut.err, [Event.readabilityRun])) := by
  refine ⟨?_, ?_, ?_, ?_⟩
  · exact (C6_readability_base_url_and_failures (pairEnv "p" "r") exUrl "<p>x</p>").1
      "https://example.com/b?q=1"
      ⟨"https", some "example.com", "/a", none, none⟩
      ⟨"https", some "example.com", "/b", some "q=1", none⟩
      (by decide) (by decide) (by decide) (by decide)
  · exact (C6_readability_base_url_and_failures (pairEnv "p" "r") "not a url"
      "<p>x</p>").2.1 (by decide)
  · exact (C6_readability_base_url_and_failures baseFailEnv exUrl "<p>x</p>").2.2.1
      ⟨"https", some "example.com", "/a", none, none⟩ (by decide) (by decide)
  · exact (C6_readability_base_url_and_failures readFailEnv exUrl "<p>x</p>").2.2.2.1
      ⟨"https", some "example.com", "/a", none, none⟩
      ⟨"https", some "example.com", "/a", none, none⟩
      (by decide) (by decide) (by decide)

/-- C7 counterexample: in `pagePanicEnv` the byte stream decodes to two
pages whose second page's text fails to decode, and the paginated
extractor panics instead of returning a decode failure. -/
theorem C7_page_failure_counterexample :
    pagePanicEnv.loadPdf [0] = some [some "a", none]
    ∧ (get_webpage_text_headless pagePanicEnv exUrl).1 = ROut.panicked := by decide

/-- C7 (amended): when the byte stream itself cannot be decoded the
paginated extractor returns a decode failure (no partial result), but
when the stream decodes and any single page's text cannot be decoded
the extractor panics (abnormal termination) instead of returning a
failure. -/
theorem C7_decode_failure_returns_page_failure_panics (env : Env)
    (url : String) (bytes : List Nat)
    (hb : env.browserLaunch = some ()) (ht : env.newTab = some ())
    (hn : env.navigate url = some ()) (hp : env.printToPdf url = some bytes)
    (hpb : env.pdfiumBind = some ()) :
    (env.loadPdf bytes = none → (get_webpage_text_headless env url).1 = ROut.err)
    ∧ (∀ pages, env.loadPdf bytes = some pages → none ∈ pages →
        (get_webpage_text_headless env url).1 = ROut.panicked) := by
  constructor
  · intro hl
    simp only [get_webpage_text_headless, hb, ht, hn, hp, hpb, hl]
  · intro pages hl hmem
    simp only [get_webpage_text_headless, hb, ht, hn, hp, hpb, hl,
      collectPages_eq_none pages hmem]

/-- Witness for C7 (amended), at a failing byte stream and at a failing
page. -/
theorem C7_decode_failure_returns_page_failure_panics_witness :
    (pagFailEnv.loadPdf [0] = none
      ∧ (get_webpage_text_headless pagFailEnv exUrl).1 = ROut.err)
    ∧ (pagePanicEnv.loadPdf [0] = some [some "a", none]
      ∧ (get_webpage_text_headless pagePanicEnv exUrl).1 = ROut.panicked) := by
  refine ⟨⟨by decide, ?_⟩, by decide, ?_⟩
  · exact (C7_decode_failure_returns_page_failure_panics pagFailEnv exUrl [0]
      rfl rfl rfl rfl rfl).1 (by decide)
  · exact (C7_decode_failure_returns_page_failure_panics pagePanicEnv exUrl [0]
      rfl rfl rfl rfl rfl).2 [some "a", none] (by decide) (by decide)

/-- C8: the pipeline is a pure function of the rendered snapshot: two
environments that agree on the URL parser, the browser stages at the
given URL (launch, tab, navigation, printed PDF bytes, raw markup), the
PDF decoder, the readability extractor and the text renderer produce
identical `text_to_use` results — re-running against an unchanged
snapshot yields an identical selection, and the word-count selection
itself is deterministic. -/
theorem C8_pipeline_deterministic_in_snapshot (env₁ env₂ : Env) (url : String)
    (hu : ∀ s, env₂.urlParse s = env₁.urlParse s)
    (hb : env₂.browserLaunch = env₁.browserLaunch)
    (htb : env₂.newTab = env₁.newTab)
    (hn : env₂.navigate url = env₁.navigate url)
    (hp : env₂.printToPdf url = env₁.printToPdf url)
    (hg : env₂.getContent url = env₁.getContent url)
    (hpb : env₂.pdfiumBind = env₁.pdfiumBind)
    (hl : ∀ b, env₂.loadPdf b = env₁.loadPdf b)
    (hr : ∀ h b, env₂.readabilityExtract h b = env₁.readabilityExtract h b)
    (hh : ∀ s, env₂.html2textRender s = env₁.html2textRender s) :
    text_to_use env₂ url = text_to_use env₁ url := by
  have hu' : env₂.urlParse = env₁.urlParse := funext hu
  have hl' : env₂.loadPdf = env₁.loadPdf := funext hl
  have hr' : env₂.readabilityExtract = env₁.readabilityExtract :=
    funext fun a => funext fun b => hr a b
  have hh' : env₂.html2textRender = env₁.html2textRender := funext hh
  unfold text_to_use get_webpage_text_headless get_html_headless
    extract_article_text_from_html
  rw [hu', hl', hr', hh', hb, htb, hn, hp, hg, hpb]

/-- Witness for C8: an environment whose navigation oracle is written
differently but agrees at the fixture URL gives the identical result. -/
theorem C8_pipeline_deterministic_in_snapshot_witness :
    (∀ s, altNavEnv.urlParse s = (pairEnv "p" "r").urlParse s)
    ∧ altNavEnv.navigate exUrl = (pairEnv "p" "r").navigate exUrl
    ∧ text_to_use altNavEnv exUrl = text_to_use (pairEnv "p" "r") exUrl := by
  refine ⟨fun s => rfl, by decide, ?_⟩
  exact C8_pipeline_deterministic_in_snapshot (pairEnv "p" "r") altNavEnv exUrl
    (fun s => rfl) rfl rfl (by decide) rfl rfl rfl (fun b => rfl)
    (fun h b => rfl) (fun s => rfl)

end Scrape

namespace Scrape

/-- C9: an input that fails URL parsing is answered with the fixed
invalid-URL body immediately: the pipeline is never entered and no event
(in particular no render) is performed. -/
theorem C9_invalid_url_short_circuits (env : Env) (url : String)
    (h : env.urlParse url = none) :
    handle_post env url = (ROut.ok "parse target url failure", []) := by
  simp only [handle_post, h]

/-- Witness for C9 at the literal input "not a url". -/
theorem C9_invalid_url_short_circuits_witness :
    (pairEnv "p" "r").urlParse "not a url" = none
    ∧ handle_post (pairEnv "p" "r") "not a url" =
        (ROut.ok "parse target url failure", []) :=
  ⟨by decide, C9_invalid_url_short_circuits (pairEnv "p" "r") "not a url" (by decide)⟩

lemma empty_string_as_none_of_ne (url : String) (h : url ≠ "") :
    empty_string_as_none (some url) = some url := by
  unfold empty_string_as_none
  split <;> simp_all

/-- C10: the GET `/` handler never invokes the readability extraction
(no `readabilityRun` event ever appears in its trace, so the selection
between two candidates never happens), a missing or empty `url`
parameter yields the fixed ill-formed-request body, and on success the
response body is exactly the paginated extraction's text. -/
theorem C10_root_endpoint_paginated_only (env : Env) :
    (∀ raw, Event.readabilityRun ∉ (handler env raw).2)
    ∧ handler env none = (ROut.ok "probably ill-formed request", [])
    ∧ handler env (some "") = (ROut.ok "probably ill-formed request", [])
    ∧ (∀ url p s, url ≠ "" → env.urlParse url = some p →
        (get_webpage_text_headless env url).1 = ROut.ok s →
        (handler env (some url)).1 = ROut.ok s) := by
  refine ⟨?_, rfl, rfl, ?_⟩
  · intro raw
    unfold handler
    cases hr : empty_string_as_none raw with
    | none => simp
    | some url =>
      cases hu : env.urlParse url with
      | none => simp [hu]
      | some p =>
        simp only [hu]
        cases hg : (get_webpage_text_headless env url).1 <;>
          simpa using readabilityRun_not_mem_gwth env url
  · intro url p s hne hu hg
    simp only [handler, empty_string_as_none_of_ne url hne, hu, hg]

/-- Witness for C10 at the fully successful environment. -/
theorem C10_root_endpoint_paginated_only_witness :
    Event.readabilityRun ∉ (handler (pairEnv "p" "r") (some exUrl)).2
    ∧ handler (pairEnv "p" "r") none = (ROut.ok "probably ill-formed request", [])
    ∧ handler (pairEnv "p" "r") (some "") = (ROut.ok "probably ill-formed request", [])
    ∧ (handler (pairEnv "p" "r") (some exUrl)).1 = ROut.ok "p" := by
  refine ⟨(C10_root_endpoint_paginated_only (pairEnv "p" "r")).1 (some exUrl),
    (C10_root_endpoint_paginated_only (pairEnv "p" "r")).2.1,
    (C10_root_endpoint_paginated_only (pairEnv "p" "r")).2.2.1,
    (C10_root_endpoint_paginated_only (pairEnv "p" "r")).2.2.2 exUrl
      ⟨"https", some "example.com", "/a", none, none⟩ "p"
      (by decide) (by decide) (by decide)⟩

end Scrape
